import Mathlib

/-!
Verification of the mock REST API layer of the QA-TypeScript-Project repository.

The repository contains two variants of the mock backend:

* `tests/mocks/handlers.ts` — the `/api/*` handlers with validating order
  creation/update and in-place array stores (`mockUsers`, `mockProducts`,
  `mockOrders`).  Embedded below in namespace `MockApi`.
* the jsonplaceholder-based handlers file (src/unnamed/part_010) with the
  stateful `orderStore` Map and mostly canned, non-validating responses.
  Embedded below in namespace `JPH`.

Modelling conventions:
* TS numbers are modelled as rationals (`ℚ`); all arithmetic in the handlers
  is exact decimal arithmetic on small literals.
* Possibly-absent fields of duck-typed request bodies are `Option` fields.
* JS falsiness of `x || d` on numbers (undefined, 0 are falsy) and strings
  (undefined, empty string are falsy) is modelled by `jsOrNum` / `jsOrStr`.
* A handler is a pure function from (store, request data) to
  (response, new store); the single-threaded mock executes handlers
  atomically, so explicit state passing is faithful.
-/

/-- JS `v || d` for a possibly-missing numeric field: `undefined` and `0`
are falsy and give the default. -/
def jsOrNum (v : Option ℚ) (d : ℚ) : ℚ :=
  match v with
  | none => d
  | some x => if x = 0 then d else x

/-- JS `v || d` for a possibly-missing string field: `undefined` and the
empty string are falsy and give the default. -/
def jsOrStr (v : Option String) (d : String) : String :=
  match v with
  | none => d
  | some s => if s = "" then d else s

/-- JS truthiness of a possibly-missing integer field (`!body.userId`):
`undefined` and `0` are falsy. -/
def jsTruthyInt (v : Option Int) : Bool :=
  match v with
  | none => false
  | some n => n != 0

/-- JS truthiness of a possibly-missing string field (`if (updates.status)`):
`undefined` and the empty string are falsy. -/
def jsTruthyStr (v : Option String) : Bool :=
  match v with
  | none => false
  | some s => s != ""

/-- `Math.max(...l, 0)`: maximum of a list of ids and `0`. -/
def maxId (l : List Int) : Int := l.foldr max 0

/-- Substring containment on char lists, the semantics of JS
`hay.includes(needle)` (checked at every suffix; the empty needle is
contained in everything). -/
def containsSub : List Char → List Char → Bool
  | n, [] => n.isEmpty
  | n, c :: t => n.isPrefixOf (c :: t) || containsSub n t

/-- The characters of a string lowercased, the semantics of JS
`s.toLowerCase()` on the ASCII data used by the mock (character-wise
lowercasing). -/
def lowerData (s : String) : List Char := s.data.map Char.toLower

/-- Replace the first element satisfying `test` (the element found by
`Array.prototype.find`, which is then mutated in place by `Object.assign`). -/
def replaceFirst {α : Type} (test : α → Bool) (v : α) : List α → List α
  | [] => []
  | x :: xs => if test x then v :: xs else x :: replaceFirst test v xs

/-- Response of a handler: an HTTP status code together with either an error
message (the `{ error: msg }` body) or a JSON payload. -/
abbrev Resp (α : Type) := Nat × (String ⊕ α)

/-! ### Request router

MSW dispatches a request to the first handler in the registered list whose
method and path pattern match (the source comments state: special routes
MUST come before parameterized routes in MSW).  A path pattern is a list of
segments, each either a literal or a parameter. -/

/-- A path-pattern segment: literal text or a `:name` parameter. -/
inductive Seg where
  | lit (s : String)
  | par (s : String)
deriving DecidableEq

/-- A registered route: HTTP method, path pattern and an identifying name
for the bound handler. -/
structure Route where
  method : String
  pattern : List Seg
  handler : String
deriving DecidableEq

/-- Does a pattern match a concrete path (segment lists of equal length,
literals matching exactly, parameters matching anything)? -/
def patMatches : List Seg → List String → Bool
  | [], [] => true
  | Seg.lit s :: ps, t :: ts => (s == t) && patMatches ps ts
  | Seg.par _ :: ps, _ :: ts => patMatches ps ts
  | _, _ => false

/-- A pattern is literal when it has no parameter segment. -/
def isLitPat : List Seg → Bool
  | [] => true
  | Seg.lit _ :: t => isLitPat t
  | Seg.par _ :: _ => false

/-- The literal text of a pattern (parameters contribute a dummy; only used
on literal patterns). -/
def litParts : List Seg → List String
  | [] => []
  | Seg.lit s :: t => s :: litParts t
  | Seg.par _ :: t => "" :: litParts t

/-- MSW dispatch: the first registered route whose method and pattern match. -/
def dispatch (routes : List Route) (m : String) (path : List String) : Option Route :=
  routes.find? (fun r => (r.method == m) && patMatches r.pattern path)

/-- The route list of tests/mocks/handlers.ts, in registration order. -/
def mockApiRoutes : List Route :=
  [⟨"GET", [Seg.lit "api", Seg.lit "users"], "listUsers"⟩,
   ⟨"GET", [Seg.lit "api", Seg.lit "users", Seg.par "id"], "getUser"⟩,
   ⟨"POST", [Seg.lit "api", Seg.lit "users"], "createUser"⟩,
   ⟨"GET", [Seg.lit "api", Seg.lit "products"], "listProducts"⟩,
   ⟨"GET", [Seg.lit "api", Seg.lit "products", Seg.lit "search"], "searchProducts"⟩,
   ⟨"GET", [Seg.lit "api", Seg.lit "products", Seg.par "id"], "getProduct"⟩,
   ⟨"PATCH", [Seg.lit "api", Seg.lit "products", Seg.par "id"], "updateProduct"⟩,
   ⟨"GET", [Seg.lit "api", Seg.lit "orders"], "listOrders"⟩,
   ⟨"GET", [Seg.lit "api", Seg.lit "orders", Seg.par "id"], "getOrder"⟩,
   ⟨"POST", [Seg.lit "api", Seg.lit "orders"], "createOrder"⟩,
   ⟨"PUT", [Seg.lit "api", Seg.lit "orders", Seg.par "id"], "updateOrder"⟩]

/-- The route list of the jsonplaceholder handlers file
(userHandlers ++ productHandlers ++ orderHandlers), in registration order;
paths are relative to the API base URL. -/
def jphRoutes : List Route :=
  [⟨"GET", [Seg.lit "users"], "listUsers"⟩,
   ⟨"GET", [Seg.lit "users", Seg.par "id"], "getUser"⟩,
   ⟨"POST", [Seg.lit "users"], "createUser"⟩,
   ⟨"PUT", [Seg.lit "users", Seg.par "id"], "updateUser"⟩,
   ⟨"GET", [Seg.lit "products"], "listProducts"⟩,
   ⟨"GET", [Seg.lit "products", Seg.lit "search"], "searchProducts"⟩,
   ⟨"GET", [Seg.lit "products", Seg.par "id"], "getProduct"⟩,
   ⟨"PATCH", [Seg.lit "products", Seg.par "id"], "updateProduct"⟩,
   ⟨"GET", [Seg.lit "orders"], "listOrders"⟩,
   ⟨"GET", [Seg.lit "orders", Seg.par "id"], "getOrder"⟩,
   ⟨"POST", [Seg.lit "orders"], "createOrder"⟩,
   ⟨"PUT", [Seg.lit "orders", Seg.par "id"], "updateOrder"⟩,
   ⟨"PATCH", [Seg.lit "orders", Seg.par "id"], "patchOrder"⟩]

/-- A literal pattern matches exactly its own text. -/
theorem patMatches_of_lit (pat : List Seg) (path : List String)
    (h : isLitPat pat = true) :
    patMatches pat path = true ↔ path = litParts pat := by
  induction pat generalizing path with
  | nil =>
    cases path <;> simp [patMatches, litParts]
  | cons s t ih =>
    cases s with
    | lit x =>
      cases path with
      | nil => simp [patMatches, litParts]
      | cons p ps =>
        simp only [isLitPat] at h
        simp only [patMatches, litParts, Bool.and_eq_true, beq_iff_eq,
          List.cons.injEq, ih ps h]
        constructor
        · rintro ⟨h1, h2⟩; exact ⟨h1.symm, h2⟩
        · rintro ⟨h1, h2⟩; exact ⟨h1.symm, h2⟩
    | par x => simp [isLitPat] at h

/-! ### The tests/mocks/handlers.ts variant -/

namespace MockApi

/-- A user record (tests/mocks/handlers.ts `User`; the mock data and the
create handler always populate every field). -/
structure User where
  id : Int
  username : String
  firstName : String
  lastName : String
  email : String
deriving DecidableEq

/-- A product record (`Product` of src/types; `image`/`category` are
optional and absent from the seeded data). -/
structure Product where
  id : Int
  name : String
  description : String
  price : ℚ
  inStock : Bool
  image : Option String := none
  category : Option String := none
deriving DecidableEq

/-- An order item `{ productId, quantity, price }`; fields are optional
because request bodies are duck-typed (`req.body as Partial<Order>`). -/
structure OrderItem where
  productId : Option Int := none
  quantity : Option ℚ := none
  price : Option ℚ := none
deriving DecidableEq

/-- A stored order record. -/
structure Order where
  id : Int
  userId : Int
  items : List OrderItem
  total : ℚ
  status : String
  createdAt : String
deriving DecidableEq

/-- A duck-typed order request body (`Partial<Order>`), used both by the
create handler and (as the update payload) by the PUT handler. -/
structure OrderBody where
  id : Option Int := none
  userId : Option Int := none
  items : Option (List OrderItem) := none
  total : Option ℚ := none
  status : Option String := none
  createdAt : Option String := none
deriving DecidableEq

/-- A duck-typed user request body (`Partial<User>`). -/
structure UserBody where
  username : Option String := none
  firstName : Option String := none
  lastName : Option String := none
  email : Option String := none
deriving DecidableEq

/-- A duck-typed product patch body (`Partial<Product>`). -/
structure ProductPatch where
  id : Option Int := none
  name : Option String := none
  description : Option String := none
  price : Option ℚ := none
  inStock : Option Bool := none
  image : Option String := none
  category : Option String := none
deriving DecidableEq

/-- The seeded `mockUsers` array. -/
def mockUsers : List User :=
  [⟨1, "johndoe", "John", "Doe", "john@example.com"⟩,
   ⟨2, "janedoe", "Jane", "Doe", "jane@example.com"⟩]

/-- The seeded `mockProducts` array. -/
def mockProducts : List Product :=
  [⟨1, "Laptop Pro", "High-performance laptop for professionals", 1299.99, true, none, none⟩,
   ⟨2, "Wireless Mouse", "Ergonomic wireless mouse", 29.99, true, none, none⟩,
   ⟨3, "USB-C Cable", "Durable USB-C charging cable", 14.99, true, none, none⟩]

/-- The seeded `mockOrders` array. -/
def mockOrders : List Order :=
  [⟨1, 1, [⟨some 1, some 1, some 1299.99⟩, ⟨some 2, some 2, some 29.99⟩],
    1359.97, "shipped", "2024-01-15T10:30:00Z"⟩,
   ⟨2, 2, [⟨some 3, some 5, some 14.99⟩], 74.95, "pending", "2024-01-16T14:20:00Z"⟩]

/-- GET /api/users/:id — `mockUsers.find(u => u.id === userId)`, 404 on
miss; the store is returned untouched (the handler only reads it). -/
def getUser (store : List User) (uid : Int) : Resp User × List User :=
  match store.find? (fun u => u.id == uid) with
  | none => ((404, Sum.inl "User not found"), store)
  | some u => ((200, Sum.inr u), store)

/-- POST /api/users — assigns `Math.max(...ids, 0) + 1`, defaults every
missing (or empty, by JS falsiness) field, pushes onto the store. -/
def createUser (store : List User) (b : UserBody) : (Nat × User) × List User :=
  let u : User :=
    { id := maxId (store.map (fun x => x.id)) + 1,
      username := jsOrStr b.username "newuser",
      firstName := jsOrStr b.firstName "New",
      lastName := jsOrStr b.lastName "User",
      email := jsOrStr b.email "new@example.com" }
  ((201, u), store ++ [u])

/-- GET /api/products — optional case-insensitive substring filter on the
name (skipped when the `q` parameter is absent or empty, which are falsy),
then `.slice(0, limit)` with `limit` parsed from the query (default 10). -/
def listProducts (store : List Product) (limit : Option Nat) (q : Option String) :
    List Product :=
  let results :=
    match q with
    | some s =>
        if s = "" then store
        else store.filter (fun p => containsSub (lowerData s) (lowerData p.name))
    | none => store
  results.take (limit.getD 10)

/-- Merge of a product patch into a stored product (`Object.assign`): every
field present in the payload overwrites, every absent field is kept. -/
def assignProduct (p : Product) (u : ProductPatch) : Product :=
  { id := u.id.getD p.id,
    name := u.name.getD p.name,
    description := u.description.getD p.description,
    price := u.price.getD p.price,
    inStock := u.inStock.getD p.inStock,
    image := match u.image with | some v => some v | none => p.image,
    category := match u.category with | some v => some v | none => p.category }

/-- PATCH /api/products/:id — 404 on miss, otherwise `Object.assign` of the
payload into the found record (mutated in place, hence `replaceFirst`). -/
def updateProduct (store : List Product) (pid : Int) (u : ProductPatch) :
    Resp Product × List Product :=
  match store.find? (fun p => p.id == pid) with
  | none => ((404, Sum.inl "Product not found"), store)
  | some p =>
      let p2 := assignProduct p u
      ((200, Sum.inr p2), replaceFirst (fun x => x.id == pid) p2 store)

/-- GET /api/orders/:id — find by id, 404 on miss, store untouched. -/
def getOrder (store : List Order) (oid : Int) : Resp Order × List Order :=
  match store.find? (fun o => o.id == oid) with
  | none => ((404, Sum.inl "Order not found"), store)
  | some o => ((200, Sum.inr o), store)

/-- `items.reduce((sum, item) => sum + (item.price || 0) * (item.quantity || 0), 0)`. -/
def itemsTotal (l : List OrderItem) : ℚ :=
  l.foldl (fun s it => s + jsOrNum it.price 0 * jsOrNum it.quantity 0) 0

/-- POST /api/orders — rejects a falsy userId, an absent or empty item
list, and any item whose quantity (defaulted to 0) is not positive; on
success assigns `max(ids, 0) + 1`, computes the total from the items,
sets status pending and pushes the order. -/
def createOrder (store : List Order) (b : OrderBody) (now : String) :
    Resp Order × List Order :=
  if jsTruthyInt b.userId = false then
    ((400, Sum.inl "userId is required"), store)
  else
    match b.items with
    | none => ((400, Sum.inl "Order must contain at least one item"), store)
    | some l =>
        if l.isEmpty then
          ((400, Sum.inl "Order must contain at least one item"), store)
        else if l.any (fun it => decide (jsOrNum it.quantity 0 ≤ 0)) then
          ((400, Sum.inl "Quantity must be greater than 0"), store)
        else
          let o : Order :=
            { id := maxId (store.map (fun x => x.id)) + 1,
              userId := b.userId.getD 0,
              items := l,
              total := itemsTotal l,
              status := "pending",
              createdAt := now }
          ((201, Sum.inr o), store ++ [o])

/-- The `validStatuses` array of the PUT /api/orders/:id handler. -/
def validStatuses : List String := ["pending", "processing", "shipped", "delivered"]

/-- Merge of an update payload into a stored order (`Object.assign`). -/
def assignOrder (o : Order) (u : OrderBody) : Order :=
  { id := u.id.getD o.id,
    userId := u.userId.getD o.userId,
    items := u.items.getD o.items,
    total := u.total.getD o.total,
    status := u.status.getD o.status,
    createdAt := u.createdAt.getD o.createdAt }

/-- PUT /api/orders/:id — 404 on miss; when the payload carries a truthy
status (JS truthiness: a non-empty string) outside `validStatuses` the
handler answers 400 without touching the store; otherwise the payload is
merged into the found order in place. -/
def updateOrder (store : List Order) (oid : Int) (u : OrderBody) :
    Resp Order × List Order :=
  match store.find? (fun o => o.id == oid) with
  | none => ((404, Sum.inl "Order not found"), store)
  | some o =>
      if jsTruthyStr u.status && !(validStatuses.contains (u.status.getD "")) then
        ((400, Sum.inl "Invalid status"), store)
      else
        let o2 := assignOrder o u
        ((200, Sum.inr o2), replaceFirst (fun x => x.id == oid) o2 store)

end MockApi

/-! ### The jsonplaceholder handlers variant (stateful orderStore) -/

namespace JPH

/-- A user payload of the jsonplaceholder user handlers. -/
structure JUser where
  id : Int
  username : String
  email : String
  firstName : String
  lastName : String
  role : String
deriving DecidableEq

/-- A duck-typed user request body. -/
structure JUserBody where
  username : Option String := none
  email : Option String := none
  firstName : Option String := none
  lastName : Option String := none
deriving DecidableEq

/-- A product payload of the jsonplaceholder product handlers (the canned
PATCH response carries no `image` field, hence the option). -/
structure JProduct where
  id : Int
  name : String
  description : String
  price : ℚ
  image : Option String
  category : String
  inStock : Bool
deriving DecidableEq

/-- A duck-typed product patch body (only `price` and `inStock` are read). -/
structure JProductPatch where
  price : Option ℚ := none
  inStock : Option Bool := none
deriving DecidableEq

/-- An order item; the seeded store uses a `price` field while the create
handler reads `unitPrice`, so both coexist on the duck-typed objects. -/
structure JOrderItem where
  productId : Option Int := none
  quantity : Option ℚ := none
  unitPrice : Option ℚ := none
  price : Option ℚ := none
deriving DecidableEq

/-- A stored order of the `orderStore` Map (`userId` can be undefined
because the create handler copies it unvalidated from the body). -/
structure JOrder where
  id : Int
  userId : Option Int
  items : List JOrderItem
  total : ℚ
  status : String
  createdAt : String
deriving DecidableEq

/-- A duck-typed order creation body. -/
structure JOrderBody where
  userId : Option Int := none
  items : Option (List JOrderItem) := none
  total : Option ℚ := none
deriving DecidableEq

/-- The `orderStore` Map, as an insertion-ordered association list. -/
abbrev JStore := List (Int × JOrder)

/-- `Map.get` — the value at the first (unique) matching key. -/
def mapGet : JStore → Int → Option JOrder
  | [], _ => none
  | (k, v) :: t, k2 => if k == k2 then some v else mapGet t k2

/-- `Map.set` — replace the value at an existing key in place, or append a
new entry at the end (JS Maps preserve insertion order). -/
def mapSet : JStore → Int → JOrder → JStore
  | [], k, v => [(k, v)]
  | (k1, v1) :: t, k, v => if k1 == k then (k, v) :: t else (k1, v1) :: mapSet t k v

/-- The seeded `orderStore` entries. -/
def seedOrders : JStore :=
  [(1, ⟨1, some 1,
        [⟨some 1, some 2, none, some 99.99⟩, ⟨some 2, some 1, none, some 199.99⟩],
        399.97, "pending", "2024-01-15T10:00:00Z"⟩),
   (2, ⟨2, some 2, [⟨some 3, some 1, none, some 49.99⟩],
        49.99, "processing", "2024-01-16T14:30:00Z"⟩),
   (3, ⟨3, some 1, [⟨some 4, some 3, none, some 29.99⟩],
        89.97, "completed", "2024-01-17T09:15:00Z"⟩)]

/-- POST /users — a canned 201 response with the fixed id 11; nothing is
stored (the handler is stateless). -/
def createUser (b : JUserBody) : Nat × JUser :=
  (201,
   { id := 11,
     username := jsOrStr b.username "newuser",
     email := jsOrStr b.email "newuser@example.com",
     firstName := jsOrStr b.firstName "New",
     lastName := jsOrStr b.lastName "User",
     role := "user" })

/-- GET /products/:id — a canned product derived from the id. -/
def getProduct (pid : Int) : Nat × JProduct :=
  (200,
   { id := pid,
     name := "Product " ++ toString pid,
     description := "This is product " ++ toString pid,
     price := 99.99,
     image := some "https://via.placeholder.com/200",
     category := "Electronics",
     inStock := true })

/-- PATCH /products/:id — a canned record with the fixed name
"Updated Product"; only `price` (JS-falsy default 99.99) and `inStock`
(presence-tested default true) are taken from the body, and nothing about
the request id or any store is consulted. -/
def patchProduct (b : JProductPatch) : Nat × JProduct :=
  (200,
   { id := 1,
     name := "Updated Product",
     description := "Updated description",
     price := jsOrNum b.price 99.99,
     image := none,
     category := "Electronics",
     inStock := b.inStock.getD true })

/-- The fresh default order fabricated by the order handlers for an id that
is absent from the store. -/
def defaultOrder (oid : Int) (now : String) : JOrder :=
  { id := oid, userId := some 1, items := [], total := 0,
    status := "pending", createdAt := now }

/-- GET /orders/:id — always 200: the stored order, or a fabricated
default for an absent id; the store itself is never touched. -/
def getOrder (store : JStore) (oid : Int) (now : String) : Resp JOrder × JStore :=
  ((200, Sum.inr ((mapGet store oid).getD (defaultOrder oid now))), store)

/-- The total computed by the create handler from the items:
`(item.unitPrice || 50) * (item.quantity || 1)` summed up. -/
def jItemsTotal (l : List JOrderItem) : ℚ :=
  l.foldl (fun s it => s + jsOrNum it.unitPrice 50 * jsOrNum it.quantity 1) 0

/-- POST /orders — no validation at all: assigns `max(keys, 0) + 1`,
takes a truthy caller-supplied total as is, otherwise computes it from the
items when they are present and non-empty (and 0 when they are not), sets
status pending and stores the order. -/
def createOrder (store : JStore) (b : JOrderBody) (now : String) :
    Resp JOrder × JStore :=
  let newId := maxId (store.map (fun kv => kv.1)) + 1
  let t0 := jsOrNum b.total 0
  let total :=
    match b.items with
    | some l => if t0 = 0 ∧ l ≠ [] then jItemsTotal l else t0
    | none => t0
  let o : JOrder :=
    { id := newId, userId := b.userId, items := b.items.getD [],
      total := total, status := "pending", createdAt := now }
  ((201, Sum.inr o), mapSet store newId o)

/-- PUT /orders/:id — never fails: spreads the existing order (or a fresh
default for an absent id) and overwrites `status` with
`body?.status || 'pending'` (any string is accepted; an absent or empty
status silently becomes "pending"), then stores the result. -/
def updateOrder (store : JStore) (oid : Int) (bodyStatus : Option String)
    (now : String) : Resp JOrder × JStore :=
  let base := (mapGet store oid).getD (defaultOrder oid now)
  let o2 := { base with status := jsOrStr bodyStatus "pending" }
  ((200, Sum.inr o2), mapSet store oid o2)

end JPH

/-! ### Helper lemmas -/

/-- A field that is explicitly supplied is taken as is when the JS default
is 0 (the default and the falsy-0 branch coincide). -/
theorem jsOrNum_some_zero (v : ℚ) : jsOrNum (some v) 0 = v := by
  by_cases h : v = 0 <;> simp [jsOrNum, h]

/-- Every id in the list is bounded by `maxId`. -/
theorem le_maxId (l : List Int) : ∀ x ∈ l, x ≤ maxId l := by
  induction l with
  | nil => intro x hx; cases hx
  | cons a t ih =>
    intro x hx
    rcases List.mem_cons.mp hx with rfl | hx
    · exact le_max_left _ _
    · exact le_trans (ih x hx) (le_trans (le_max_right a _) (le_refl _))

/-- The empty needle is contained in every haystack. -/
theorem containsSub_nil (h : List Char) : containsSub [] h = true := by
  cases h <;> simp [containsSub, List.isPrefixOf, List.isEmpty]

/-- An element of the store that the replacement does not target survives
`replaceFirst` unchanged. -/
theorem mem_replaceFirst {α : Type} (test : α → Bool) (v : α) (l : List α)
    (x : α) (hx : x ∈ l) (hnot : test x = false) :
    x ∈ replaceFirst test v l := by
  induction l with
  | nil => cases hx
  | cons a t ih =>
    rcases List.mem_cons.mp hx with rfl | hx
    · simp [replaceFirst, hnot]
    · by_cases ha : test a = true
      · simp [replaceFirst, ha, List.mem_cons, hx]
      · simp only [Bool.not_eq_true] at ha
        simp [replaceFirst, ha, List.mem_cons, ih hx]

/-- Reading back the key just written by `Map.set`. -/
theorem mapGet_mapSet_self (s : JPH.JStore) (k : Int) (v : JPH.JOrder) :
    JPH.mapGet (JPH.mapSet s k v) k = some v := by
  induction s with
  | nil => simp [JPH.mapSet, JPH.mapGet]
  | cons a t ih =>
    by_cases h : a.1 = k
    · simp [JPH.mapSet, JPH.mapGet, h]
    · have hb : (a.1 == k) = false := beq_eq_false_iff_ne.mpr h
      cases a with
      | mk k1 v1 =>
        simp only at hb
        simp [JPH.mapSet, JPH.mapGet, hb, ih]

/-- Folding the running sum of a mapped quantity equals the accumulator
plus the sum of the mapped list. -/
theorem foldl_add_map {α : Type} (f : α → ℚ) (l : List α) :
    ∀ a : ℚ, l.foldl (fun s x => s + f x) a = a + (l.map f).sum := by
  induction l with
  | nil => intro a; simp
  | cons x t ih =>
    intro a
    simp only [List.foldl_cons, List.map_cons, List.sum_cons, ih (a + f x)]
    ring

/-! ### Claims -/

/-- C1: Router precedence.  In both registered handler lists, for every
(method, path) that matches both a fully literal pattern and a
parameterized pattern, first-match dispatch reaches a handler with a
fully literal pattern — in particular GET /products/search is served by
the literal search handler and never by the parameterized /products/:id
handler. -/
theorem c1_router_literal_precedence :
    (∀ (m : String) (path : List String) (r q : Route),
        r ∈ mockApiRoutes → r.method = m → isLitPat r.pattern = true →
        patMatches r.pattern path = true →
        q ∈ mockApiRoutes → q.method = m → isLitPat q.pattern = false →
        patMatches q.pattern path = true →
        ∃ d, dispatch mockApiRoutes m path = some d ∧ isLitPat d.pattern = true) ∧
    (∀ (m : String) (path : List String) (r q : Route),
        r ∈ jphRoutes → r.method = m → isLitPat r.pattern = true →
        patMatches r.pattern path = true →
        q ∈ jphRoutes → q.method = m → isLitPat q.pattern = false →
        patMatches q.pattern path = true →
        ∃ d, dispatch jphRoutes m path = some d ∧ isLitPat d.pattern = true) := by
  constructor
  · intro m path r q hr hrm hrlit hrmatch _ _ _ _
    have hpath : path = litParts r.pattern := (patMatches_of_lit _ _ hrlit).mp hrmatch
    subst hpath
    subst hrm
    simp only [mockApiRoutes, List.mem_cons, List.not_mem_nil, or_false] at hr
    rcases hr with rfl | rfl | rfl | rfl | rfl | rfl | rfl | rfl | rfl | rfl | rfl <;>
      first
        | exact absurd hrlit (by decide)
        | exact ⟨_, rfl, rfl⟩
  · intro m path r q hr hrm hrlit hrmatch _ _ _ _
    have hpath : path = litParts r.pattern := (patMatches_of_lit _ _ hrlit).mp hrmatch
    subst hpath
    subst hrm
    simp only [jphRoutes, List.mem_cons, List.not_mem_nil, or_false] at hr
    rcases hr with rfl | rfl | rfl | rfl | rfl | rfl | rfl | rfl | rfl | rfl | rfl | rfl | rfl <;>
      first
        | exact absurd hrlit (by decide)
        | exact ⟨_, rfl, rfl⟩

/-- C1 witness: the concrete request GET /api/products/search matches both
the literal search route and the parameterized product route, and dispatch
reaches a literal-pattern handler. -/
theorem c1_router_literal_precedence_witness :
    ∃ d, dispatch mockApiRoutes "GET" ["api", "products", "search"] = some d ∧
      isLitPat d.pattern = true :=
  c1_router_literal_precedence.1 "GET" ["api", "products", "search"]
    ⟨"GET", [Seg.lit "api", Seg.lit "products", Seg.lit "search"], "searchProducts"⟩
    ⟨"GET", [Seg.lit "api", Seg.lit "products", Seg.par "id"], "getProduct"⟩
    (by decide) rfl (by decide) (by decide) (by decide) rfl (by decide) (by decide)

/-- C9: Product listing is filter-then-limit.  For every store, search
substring and optional limit, the GET /api/products handler returns exactly
the case-insensitive name matches truncated to the first `limit` elements
of the filtered sequence (default limit 10); consequently the result never
exceeds the limit and every returned product matches the substring. -/
theorem c9_products_filter_then_limit :
    ∀ (store : List MockApi.Product) (limit : Option Nat) (q : String),
      MockApi.listProducts store limit (some q) =
        (store.filter (fun p => containsSub (lowerData q) (lowerData p.name))).take
          (limit.getD 10) ∧
      (MockApi.listProducts store limit (some q)).length ≤ limit.getD 10 ∧
      ∀ p ∈ MockApi.listProducts store limit (some q),
        containsSub (lowerData q) (lowerData p.name) = true := by
  intro store limit q
  have hmain : MockApi.listProducts store limit (some q) =
      (store.filter (fun p => containsSub (lowerData q) (lowerData p.name))).take
        (limit.getD 10) := by
    by_cases hq : q = ""
    · subst hq
      have hf : store.filter
          (fun p => containsSub (lowerData "") (lowerData p.name)) = store := by
        apply List.filter_eq_self.mpr
        intro a _
        have he : lowerData "" = [] := rfl
        rw [he]
        exact containsSub_nil _
      simp [MockApi.listProducts, hf]
    · simp [MockApi.listProducts, hq]
  refine ⟨hmain, ?_, ?_⟩
  · rw [hmain]
    exact List.length_take_le _ _
  · intro p hp
    rw [hmain] at hp
    exact (List.mem_filter.mp (List.take_subset _ _ hp)).2

/-- A key outside the store has no entry. -/
theorem mapGet_eq_none (s : JPH.JStore) (k : Int) (h : ∀ kv ∈ s, kv.1 ≠ k) :
    JPH.mapGet s k = none := by
  induction s with
  | nil => rfl
  | cons a t ih =>
    have hb : (a.1 == k) = false :=
      beq_eq_false_iff_ne.mpr (h a (List.mem_cons_self a t))
    cases a with
    | mk k1 v1 =>
      simp only at hb
      simp only [JPH.mapGet, hb, Bool.false_eq_true, if_false]
      exact ih (fun kv hkv => h kv (List.mem_cons_of_mem _ hkv))

/-- C6 (amended): in the handlers.ts variant, getUser and getOrder on an id
absent from the store answer 404 with the error body and return the store
unchanged on every call; the orderStore variant of getOrder instead answers
200 with a fabricated default order for an absent id, also leaving the
store unchanged. -/
theorem c6_get_not_found_no_mutation :
    (∀ (store : List MockApi.User) (uid : Int),
        (∀ u ∈ store, u.id ≠ uid) →
        MockApi.getUser store uid = ((404, Sum.inl "User not found"), store)) ∧
    (∀ (store : List MockApi.Order) (oid : Int),
        (∀ o ∈ store, o.id ≠ oid) →
        MockApi.getOrder store oid = ((404, Sum.inl "Order not found"), store)) ∧
    (∀ (store : JPH.JStore) (oid : Int) (now : String),
        (∀ kv ∈ store, kv.1 ≠ oid) →
        JPH.getOrder store oid now =
          ((200, Sum.inr (JPH.defaultOrder oid now)), store)) := by
  refine ⟨?_, ?_, ?_⟩
  · intro store uid h
    have hf : store.find? (fun u => u.id == uid) = none := by
      rw [List.find?_eq_none]
      intro u hu
      simp only [beq_iff_eq]
      exact h u hu
    simp [MockApi.getUser, hf]
  · intro store oid h
    have hf : store.find? (fun o => o.id == oid) = none := by
      rw [List.find?_eq_none]
      intro o ho
      simp only [beq_iff_eq]
      exact h o ho
    simp [MockApi.getOrder, hf]
  · intro store oid now h
    simp [JPH.getOrder, mapGet_eq_none store oid h]

/-- C6 witness: getUser(99999) and getOrder(99999) on the seeded stores
answer 404 and leave the stores untouched; the orderStore-variant
getOrder(999) answers 200 with the fabricated default. -/
theorem c6_get_not_found_no_mutation_witness :
    MockApi.getUser MockApi.mockUsers 99999 =
      ((404, Sum.inl "User not found"), MockApi.mockUsers) ∧
    MockApi.getOrder MockApi.mockOrders 99999 =
      ((404, Sum.inl "Order not found"), MockApi.mockOrders) ∧
    JPH.getOrder JPH.seedOrders 999 "2099-01-01T00:00:00Z" =
      ((200, Sum.inr (JPH.defaultOrder 999 "2099-01-01T00:00:00Z")), JPH.seedOrders) :=
  ⟨c6_get_not_found_no_mutation.1 _ _ (by decide),
   c6_get_not_found_no_mutation.2.1 _ _ (by decide),
   c6_get_not_found_no_mutation.2.2 _ _ _ (by decide)⟩

/-- C6 counterexample: in the orderStore variant a GET for the absent order
id 999 answers 200 (a fabricated default order), not the 404 the claim
requires for every variant. -/
theorem c6_get_not_found_counterexample :
    (JPH.getOrder JPH.seedOrders 999 "2024-01-01T00:00:00Z").1.1 = 200 ∧
    (JPH.getOrder JPH.seedOrders 999 "2024-01-01T00:00:00Z").1.1 ≠ 404 := by
  exact ⟨rfl, by decide⟩

/-- The third seeded order of the orderStore (status completed). -/
def c10order : JPH.JOrder :=
  ⟨3, some 1, [⟨some 4, some 3, none, some 29.99⟩], 89.97, "completed",
   "2024-01-17T09:15:00Z"⟩

/-- C10: in the orderStore variant, a PUT whose body has no status field
overwrites the stored status with "pending" whatever it was, and a PUT for
an id absent from the store fabricates, stores and returns a fresh default
order instead of failing. -/
theorem c10_put_overwrites_status :
    (∀ (store : JPH.JStore) (oid : Int) (o : JPH.JOrder) (now : String),
        JPH.mapGet store oid = some o →
        JPH.updateOrder store oid none now =
          ((200, Sum.inr { o with status := "pending" }),
            JPH.mapSet store oid { o with status := "pending" }) ∧
        JPH.mapGet (JPH.updateOrder store oid none now).2 oid =
          some { o with status := "pending" }) ∧
    (∀ (store : JPH.JStore) (oid : Int) (now : String),
        JPH.mapGet store oid = none →
        JPH.updateOrder store oid none now =
          ((200, Sum.inr (JPH.defaultOrder oid now)),
            JPH.mapSet store oid (JPH.defaultOrder oid now)) ∧
        JPH.mapGet (JPH.updateOrder store oid none now).2 oid =
          some (JPH.defaultOrder oid now)) := by
  constructor
  · intro store oid o now h
    have h1 : JPH.updateOrder store oid none now =
        ((200, Sum.inr { o with status := "pending" }),
          JPH.mapSet store oid { o with status := "pending" }) := by
      simp [JPH.updateOrder, h, jsOrStr]
    exact ⟨h1, by rw [h1]; exact mapGet_mapSet_self _ _ _⟩
  · intro store oid now h
    have hd : { JPH.defaultOrder oid now with status := "pending" } =
        JPH.defaultOrder oid now := rfl
    have h1 : JPH.updateOrder store oid none now =
        ((200, Sum.inr (JPH.defaultOrder oid now)),
          JPH.mapSet store oid (JPH.defaultOrder oid now)) := by
      simp [JPH.updateOrder, h, jsOrStr, hd]
    exact ⟨h1, by rw [h1]; exact mapGet_mapSet_self _ _ _⟩

/-- C10 witness: the seeded order 3 is completed, yet a PUT with no status
field makes it pending; a PUT for the absent id 42 stores the fabricated
default order. -/
theorem c10_put_overwrites_status_witness :
    c10order.status = "completed" ∧
    JPH.updateOrder JPH.seedOrders 3 none "2099-01-01T00:00:00Z" =
      ((200, Sum.inr { c10order with status := "pending" }),
        JPH.mapSet JPH.seedOrders 3 { c10order with status := "pending" }) ∧
    JPH.updateOrder JPH.seedOrders 42 none "2099-01-01T00:00:00Z" =
      ((200, Sum.inr (JPH.defaultOrder 42 "2099-01-01T00:00:00Z")),
        JPH.mapSet JPH.seedOrders 42 (JPH.defaultOrder 42 "2099-01-01T00:00:00Z")) :=
  ⟨rfl,
   (c10_put_overwrites_status.1 JPH.seedOrders 3 c10order "2099-01-01T00:00:00Z" rfl).1,
   (c10_put_overwrites_status.2 JPH.seedOrders 42 "2099-01-01T00:00:00Z" rfl).1⟩

/-- C3 (amended): in the handlers.ts variant, order creation with a
missing/falsy userId, an absent or empty item list, or an item of
non-positive quantity fails with 400 and leaves the store unmodified, and
more generally every 400 answer of the create handler leaves the store
unmodified; the orderStore variant performs no validation at all and
stores the order regardless. -/
theorem c3_create_order_validation_atomic :
    (∀ (store : List MockApi.Order) (b : MockApi.OrderBody) (now : String),
        (jsTruthyInt b.userId = false ∨ b.items = none ∨ b.items = some [] ∨
          ∃ l it q, b.items = some l ∧ it ∈ l ∧ it.quantity = some q ∧ q ≤ 0) →
        ∃ msg, MockApi.createOrder store b now = ((400, Sum.inl msg), store)) ∧
    (∀ (store : List MockApi.Order) (b : MockApi.OrderBody) (now : String),
        (MockApi.createOrder store b now).1.1 = 400 →
        (MockApi.createOrder store b now).2 = store) := by
  constructor
  · intro store b now h
    by_cases h1 : jsTruthyInt b.userId = false
    · exact ⟨"userId is required", by simp [MockApi.createOrder, h1]⟩
    · rcases h with h | hi | hi | ⟨l, it, q, hl, hit, hq, hq0⟩
      · exact absurd h h1
      · exact ⟨"Order must contain at least one item",
          by simp [MockApi.createOrder, h1, hi]⟩
      · exact ⟨"Order must contain at least one item",
          by simp [MockApi.createOrder, h1, hi, List.isEmpty]⟩
      · have hmem : l.isEmpty = false := by
          cases l with
          | nil => cases hit
          | cons a t => rfl
        have hany : l.any (fun x => decide (jsOrNum x.quantity 0 ≤ 0)) = true := by
          refine List.any_eq_true.mpr ⟨it, hit, ?_⟩
          rw [hq, jsOrNum_some_zero]
          exact decide_eq_true hq0
        exact ⟨"Quantity must be greater than 0",
          by simp [MockApi.createOrder, h1, hl, hmem, hany]⟩
  · intro store b now h400
    by_cases h1 : jsTruthyInt b.userId = false
    · simp [MockApi.createOrder, h1]
    · rcases hi : b.items with _ | l
      · simp [MockApi.createOrder, h1, hi]
      · by_cases h2 : l.isEmpty
        · simp [MockApi.createOrder, h1, hi, h2]
        · by_cases h3 : l.any (fun x => decide (jsOrNum x.quantity 0 ≤ 0)) = true
          · simp [MockApi.createOrder, h1, hi, h2, h3]
          · simp [MockApi.createOrder, h1, hi, h2, h3] at h400

/-- C3 witness: a create with no userId on the seeded store answers 400 and
leaves the store exactly as it was, as does a create with an item of
quantity -1. -/
theorem c3_create_order_validation_atomic_witness :
    (∃ msg, MockApi.createOrder MockApi.mockOrders { userId := none }
        "2099-01-01T00:00:00Z" = ((400, Sum.inl msg), MockApi.mockOrders)) ∧
    (MockApi.createOrder MockApi.mockOrders
        { userId := some 1, items := some [⟨none, some (-1), some 10⟩] }
        "2099-01-01T00:00:00Z").2 = MockApi.mockOrders :=
  ⟨c3_create_order_validation_atomic.1 MockApi.mockOrders { userId := none }
      "2099-01-01T00:00:00Z" (Or.inl (by decide)),
   c3_create_order_validation_atomic.2 MockApi.mockOrders
      { userId := some 1, items := some [⟨none, some (-1), some 10⟩] }
      "2099-01-01T00:00:00Z" (by decide)⟩

/-- C3 counterexample: in the orderStore variant, creating an order with an
empty item list answers 201 (not 400) and grows the store by one entry, so
the validation-with-atomicity claim fails on that variant. -/
theorem c3_create_order_validation_counterexample :
    (JPH.createOrder JPH.seedOrders
        { userId := some 1, items := some [], total := none }
        "2024-01-01T00:00:00Z").1.1 = 201 ∧
    (JPH.createOrder JPH.seedOrders
        { userId := some 1, items := some [], total := none }
        "2024-01-01T00:00:00Z").2.length = JPH.seedOrders.length + 1 := by
  exact ⟨rfl, rfl⟩

/-- C4 (amended): in the handlers.ts variant, updating an order whose id is
absent answers 404 with the store untouched, and an update payload carrying
a non-empty status outside the closed enum answers 400 with the store
untouched (an empty-string status slips past the check because JS
truthiness guards the validation); the orderStore variant never answers
404 and accepts any status. -/
theorem c4_update_order_error_contract :
    (∀ (store : List MockApi.Order) (oid : Int) (u : MockApi.OrderBody),
        (∀ o ∈ store, o.id ≠ oid) →
        MockApi.updateOrder store oid u = ((404, Sum.inl "Order not found"), store)) ∧
    (∀ (store : List MockApi.Order) (oid : Int) (u : MockApi.OrderBody)
        (o : MockApi.Order) (s : String),
        store.find? (fun x => x.id == oid) = some o →
        u.status = some s → s ≠ "" → MockApi.validStatuses.contains s = false →
        MockApi.updateOrder store oid u = ((400, Sum.inl "Invalid status"), store)) ∧
    (∀ (store : JPH.JStore) (oid : Int) (bs : Option String) (now : String),
        (JPH.updateOrder store oid bs now).1.1 = 200) := by
  refine ⟨?_, ?_, ?_⟩
  · intro store oid u h
    have hf : store.find? (fun o => o.id == oid) = none := by
      rw [List.find?_eq_none]
      intro o ho
      simp only [beq_iff_eq]
      exact h o ho
    simp [MockApi.updateOrder, hf]
  · intro store oid u o s hf hs hne hcon
    have hb : (s != "") = true := bne_iff_ne.mpr hne
    have hmem : s ∉ MockApi.validStatuses := by simpa using hcon
    simp [MockApi.updateOrder, hf, hs, jsTruthyStr, hb, hcon, hmem]
  · intro store oid bs now
    rfl

/-- C4 witness: updating the absent order 99 on the seeded store answers
404 without mutation; updating the existing order 1 with the out-of-enum
status "completed" answers 400 without mutation; and the orderStore-variant
PUT answers 200 even for an absent id. -/
theorem c4_update_order_error_contract_witness :
    MockApi.updateOrder MockApi.mockOrders 99 { status := some "completed" } =
      ((404, Sum.inl "Order not found"), MockApi.mockOrders) ∧
    MockApi.updateOrder MockApi.mockOrders 1 { status := some "bogus" } =
      ((400, Sum.inl "Invalid status"), MockApi.mockOrders) ∧
    (JPH.updateOrder JPH.seedOrders 7 (some "whatever") "2099-01-01T00:00:00Z").1.1 = 200 :=
  ⟨c4_update_order_error_contract.1 MockApi.mockOrders 99
      { status := some "completed" } (by decide),
   c4_update_order_error_contract.2.1 MockApi.mockOrders 1
      { status := some "bogus" }
      ⟨1, 1, [⟨some 1, some 1, some 1299.99⟩, ⟨some 2, some 2, some 29.99⟩],
        1359.97, "shipped", "2024-01-15T10:30:00Z"⟩
      "bogus" rfl rfl (by decide) (by decide),
   c4_update_order_error_contract.2.2 JPH.seedOrders 7 (some "whatever")
      "2099-01-01T00:00:00Z"⟩

/-- C4 counterexample: in the orderStore variant, a PUT for the absent
order id 99 with the out-of-enum status "bogus" answers 200 (neither the
404 nor the 400 the claim requires) and the bogus status is returned. -/
theorem c4_update_order_error_counterexample :
    (JPH.updateOrder JPH.seedOrders 99 (some "bogus") "2024-01-01T00:00:00Z").1.1 = 200 ∧
    (match (JPH.updateOrder JPH.seedOrders 99 (some "bogus")
        "2024-01-01T00:00:00Z").1.2 with
      | Sum.inr o => o.status = "bogus"
      | Sum.inl _ => False) := by
  exact ⟨rfl, rfl⟩

/-- C7 (amended): the handlers.ts user and order creation and the
orderStore-variant order creation assign id = max(existing ids) + 1 (1 on
an empty store), an id strictly greater than every id already in the
store, and append/store the created record — so any sequence of creations
yields strictly increasing unique ids; the jsonplaceholder user creation
however is stateless and always returns the fixed id 11. -/
theorem c7_id_monotonicity :
    (∀ (store : List MockApi.User) (b : MockApi.UserBody),
        (MockApi.createUser store b).1.1 = 201 ∧
        (MockApi.createUser store b).1.2.id = maxId (store.map (fun x => x.id)) + 1 ∧
        (∀ v ∈ store, v.id < (MockApi.createUser store b).1.2.id) ∧
        (MockApi.createUser store b).2 = store ++ [(MockApi.createUser store b).1.2]) ∧
    (∀ (store : List MockApi.Order) (b : MockApi.OrderBody) (now : String)
        (o : MockApi.Order) (s2 : List MockApi.Order),
        MockApi.createOrder store b now = ((201, Sum.inr o), s2) →
        o.id = maxId (store.map (fun x => x.id)) + 1 ∧
        (∀ v ∈ store, v.id < o.id) ∧ s2 = store ++ [o]) ∧
    (∀ (store : JPH.JStore) (b : JPH.JOrderBody) (now : String),
        ∃ o s2, JPH.createOrder store b now = ((201, Sum.inr o), s2) ∧
          o.id = maxId (store.map (fun kv => kv.1)) + 1 ∧
          (∀ kv ∈ store, kv.1 < o.id) ∧ JPH.mapGet s2 o.id = some o) := by
  refine ⟨?_, ?_, ?_⟩
  · intro store b
    refine ⟨rfl, rfl, ?_, rfl⟩
    intro v hv
    have hle : v.id ≤ maxId (store.map (fun x => x.id)) :=
      le_maxId _ _ (List.mem_map_of_mem _ hv)
    exact Int.lt_add_one_iff.mpr hle
  · intro store b now o s2 heq
    by_cases h1 : jsTruthyInt b.userId = false
    · simp [MockApi.createOrder, h1] at heq
    · rcases hi : b.items with _ | l
      · simp [MockApi.createOrder, h1, hi] at heq
      · by_cases h2 : l.isEmpty
        · simp [MockApi.createOrder, h1, hi, h2] at heq
        · by_cases h3 : l.any (fun x => decide (jsOrNum x.quantity 0 ≤ 0)) = true
          · simp [MockApi.createOrder, h1, hi, h2, h3] at heq
          · simp [MockApi.createOrder, h1, hi, h2, h3, Prod.mk.injEq,
              Sum.inr.injEq] at heq
            obtain ⟨ho, hs2⟩ := heq
            subst ho
            subst hs2
            refine ⟨rfl, ?_, rfl⟩
            intro v hv
            have hle : v.id ≤ maxId (store.map (fun x => x.id)) :=
              le_maxId _ _ (List.mem_map_of_mem _ hv)
            exact Int.lt_add_one_iff.mpr hle
  · intro store b now
    refine ⟨_, _, rfl, rfl, ?_, ?_⟩
    · intro kv hkv
      have hle : kv.1 ≤ maxId (store.map (fun kv => kv.1)) :=
        le_maxId _ _ (List.mem_map_of_mem _ hkv)
      exact Int.lt_add_one_iff.mpr hle
    · exact mapGet_mapSet_self _ _ _

/-- The order created by the C7 witness call (id 3 on the seeded store). -/
def c7order : MockApi.Order :=
  ⟨3, 1, [⟨none, some 1, some 10⟩], MockApi.itemsTotal [⟨none, some 1, some 10⟩],
   "pending", "2099-01-01T00:00:00Z"⟩

/-- C7 witness: creating an order on the seeded two-order store yields id
3 = max(1, 2) + 1, strictly above both existing ids, and appends it; the
seeded user store likewise hands out id 3 next. -/
theorem c7_id_monotonicity_witness :
    c7order.id = maxId (MockApi.mockOrders.map (fun x => x.id)) + 1 ∧
    (∀ v ∈ MockApi.mockOrders, v.id < c7order.id) ∧
    (MockApi.createUser MockApi.mockUsers {}).1.2.id = 3 ∧
    (∃ o s2, JPH.createOrder JPH.seedOrders {} "2099-01-01T00:00:00Z" =
        ((201, Sum.inr o), s2) ∧ o.id = 4) := by
  obtain ⟨hid, hlt, hs2⟩ :=
    c7_id_monotonicity.2.1 MockApi.mockOrders
      { userId := some 1, items := some [⟨none, some 1, some 10⟩] }
      "2099-01-01T00:00:00Z" c7order (MockApi.mockOrders ++ [c7order]) rfl
  obtain ⟨o, s2, heq, hoid, -, -⟩ :=
    c7_id_monotonicity.2.2 JPH.seedOrders {} "2099-01-01T00:00:00Z"
  exact ⟨hid, hlt, c7_id_monotonicity.1 MockApi.mockUsers {} |>.2.1.trans (by decide),
    ⟨o, s2, heq, by rw [hoid]; decide⟩⟩

/-- C7 counterexample: the jsonplaceholder user creation always answers
with the fixed id 11 and stores nothing, so a second creation does not get
an id strictly greater than the first — both are 11. -/
theorem c7_id_monotonicity_counterexample :
    (JPH.createUser {}).2.id = 11 ∧ ¬ (11 < (JPH.createUser {}).2.id) := by
  exact ⟨rfl, by decide⟩

/-- The success branch of the handlers.ts order creation, explicitly. -/
theorem createOrder_success (store : List MockApi.Order) (b : MockApi.OrderBody)
    (now : String) (l : List MockApi.OrderItem)
    (hu : jsTruthyInt b.userId = true) (hl : b.items = some l)
    (hne : l.isEmpty = false)
    (hq : l.any (fun x => decide (jsOrNum x.quantity 0 ≤ 0)) = false) :
    MockApi.createOrder store b now =
      ((201, Sum.inr
          { id := maxId (store.map (fun x => x.id)) + 1,
            userId := b.userId.getD 0, items := l,
            total := MockApi.itemsTotal l, status := "pending", createdAt := now }),
        store ++
          [{ id := maxId (store.map (fun x => x.id)) + 1,
             userId := b.userId.getD 0, items := l,
             total := MockApi.itemsTotal l, status := "pending",
             createdAt := now }]) := by
  simp [MockApi.createOrder, hu, hl, hne, hq]

/-- C8 (amended): in the handlers.ts variant, PATCH on an existing product
merges exactly the supplied fields — every omitted field of the stored
record keeps its previous value, every supplied field takes the new value —
stores the merged record in place and returns it, leaving all other
products untouched; the jsonplaceholder variant instead answers with a
canned record unrelated to any store. -/
theorem c8_update_product_frame :
    ∀ (store : List MockApi.Product) (pid : Int) (u : MockApi.ProductPatch)
      (p : MockApi.Product),
      store.find? (fun x => x.id == pid) = some p →
      ∃ p2, MockApi.updateProduct store pid u =
          ((200, Sum.inr p2), replaceFirst (fun x => x.id == pid) p2 store) ∧
        (u.name = none → p2.name = p.name) ∧
        (u.description = none → p2.description = p.description) ∧
        (u.price = none → p2.price = p.price) ∧
        (u.inStock = none → p2.inStock = p.inStock) ∧
        (∀ v, u.name = some v → p2.name = v) ∧
        (∀ v, u.price = some v → p2.price = v) ∧
        (∀ v, u.inStock = some v → p2.inStock = v) ∧
        (∀ x ∈ store, x.id ≠ pid → x ∈ (MockApi.updateProduct store pid u).2) := by
  intro store pid u p hf
  have hupd : MockApi.updateProduct store pid u =
      ((200, Sum.inr (MockApi.assignProduct p u)),
        replaceFirst (fun x => x.id == pid) (MockApi.assignProduct p u) store) := by
    simp [MockApi.updateProduct, hf]
  refine ⟨MockApi.assignProduct p u, hupd, ?_, ?_, ?_, ?_, ?_, ?_, ?_, ?_⟩
  · intro h; simp [MockApi.assignProduct, h]
  · intro h; simp [MockApi.assignProduct, h]
  · intro h; simp [MockApi.assignProduct, h]
  · intro h; simp [MockApi.assignProduct, h]
  · intro v h; simp [MockApi.assignProduct, h]
  · intro v h; simp [MockApi.assignProduct, h]
  · intro v h; simp [MockApi.assignProduct, h]
  · intro x hx hne
    rw [hupd]
    exact mem_replaceFirst _ _ _ _ hx (beq_eq_false_iff_ne.mpr hne)

/-- C8 witness: patching only the price of product 1 keeps its name,
description and stock flag and sets the new price, and product 3 survives
the call unchanged in the store. -/
theorem c8_update_product_frame_witness :
    ∃ p2, MockApi.updateProduct MockApi.mockProducts 1 { price := some 99.99 } =
        ((200, Sum.inr p2),
          replaceFirst (fun x => x.id == 1) p2 MockApi.mockProducts) ∧
      p2.name = "Laptop Pro" ∧
      p2.description = "High-performance laptop for professionals" ∧
      p2.inStock = true ∧ p2.price = 99.99 ∧
      (⟨3, "USB-C Cable", "Durable USB-C charging cable", 14.99, true, none, none⟩ :
          MockApi.Product) ∈
        (MockApi.updateProduct MockApi.mockProducts 1 { price := some 99.99 }).2 := by
  obtain ⟨p2, hupd, hname, hdesc, hprice, hstock, -, hpp, -, hmem⟩ :=
    c8_update_product_frame MockApi.mockProducts 1 { price := some 99.99 }
      ⟨1, "Laptop Pro", "High-performance laptop for professionals", 1299.99,
        true, none, none⟩ rfl
  exact ⟨p2, hupd, hname rfl, hdesc rfl, hstock rfl, hpp _ rfl,
    hmem _ (by simp [MockApi.mockProducts]) (by decide)⟩

/-- C8 counterexample: the jsonplaceholder PATCH answers with the canned
name "Updated Product" for a payload touching only the price, although
product 1 reads back as "Product 1" — the omitted name field does not keep
its previous value, refuting the frame condition for that variant. -/
theorem c8_update_product_frame_counterexample :
    (JPH.patchProduct { price := some 5 }).2.name = "Updated Product" ∧
    (JPH.getProduct 1).2.name = "Product 1" ∧
    (JPH.patchProduct { price := some 5 }).2.name ≠ (JPH.getProduct 1).2.name := by
  refine ⟨rfl, ?_, ?_⟩
  · rfl
  · intro h
    rw [show (JPH.patchProduct { price := some 5 }).2.name = "Updated Product" from rfl]
      at h
    rw [show (JPH.getProduct 1).2.name = "Product 1" from rfl] at h
    exact absurd h (by decide)

/-- A nonzero supplied field is taken as is whatever the JS default. -/
theorem jsOrNum_some_ne (v d : ℚ) (h : v ≠ 0) : jsOrNum (some v) d = v := by
  simp [jsOrNum, h]

/-- The handlers.ts total of fully specified (quantity, price) items is
exactly the sum of the products. -/
theorem itemsTotal_pairs (ps : List (ℚ × ℚ)) :
    MockApi.itemsTotal (ps.map fun x => ⟨none, some x.1, some x.2⟩) =
      (ps.map fun x => x.1 * x.2).sum := by
  rw [MockApi.itemsTotal,
    foldl_add_map (fun it : MockApi.OrderItem =>
      jsOrNum it.price 0 * jsOrNum it.quantity 0)]
  rw [zero_add, List.map_map]
  have hfun : ((fun it => jsOrNum it.price 0 * jsOrNum it.quantity 0) ∘
      (fun x : ℚ × ℚ => (⟨none, some x.1, some x.2⟩ : MockApi.OrderItem))) =
      fun x : ℚ × ℚ => x.1 * x.2 := by
    funext x
    show jsOrNum (some x.2) 0 * jsOrNum (some x.1) 0 = x.1 * x.2
    rw [jsOrNum_some_zero, jsOrNum_some_zero, mul_comm]
  rw [hfun]

/-- The orderStore-variant total of (quantity, unitPrice) items with
nonzero entries is exactly the sum of the products (a zero entry would be
replaced by the defaults 1 and 50). -/
theorem jItemsTotal_pairs (ps : List (ℚ × ℚ))
    (h : ∀ x ∈ ps, x.1 ≠ 0 ∧ x.2 ≠ 0) :
    JPH.jItemsTotal (ps.map fun x => ⟨none, some x.1, some x.2, none⟩) =
      (ps.map fun x => x.1 * x.2).sum := by
  induction ps with
  | nil => rfl
  | cons a t ih =>
    obtain ⟨h1, h2⟩ := h a (List.mem_cons_self a t)
    have ht := ih (fun x hx => h x (List.mem_cons_of_mem _ hx))
    rw [JPH.jItemsTotal,
      foldl_add_map (fun it : JPH.JOrderItem =>
        jsOrNum it.unitPrice 50 * jsOrNum it.quantity 1)] at ht ⊢
    rw [zero_add] at ht ⊢
    simp only [List.map_cons, List.sum_cons]
    rw [ht]
    have hg : jsOrNum (some a.2) 50 * jsOrNum (some a.1) 1 = a.1 * a.2 := by
      rw [jsOrNum_some_ne _ _ h2, jsOrNum_some_ne _ _ h1, mul_comm]
    rw [hg]

/-- C2 (amended): a successful order creation from fully specified
(quantity, price) items stores total = Σ quantity·price exactly in the
handlers.ts variant, and in the orderStore variant as well provided every
quantity and unit price is nonzero (a falsy unitPrice is replaced by the
default 50 and a falsy quantity by 1 there); in both variants an update
never recomputes the total — it is preserved unless the caller supplies
one. -/
theorem c2_order_total_exact :
    (∀ (store : List MockApi.Order) (ps : List (ℚ × ℚ)) (uid : Int) (now : String),
        uid ≠ 0 → ps ≠ [] → (∀ x ∈ ps, 0 < x.1) →
        ∃ o, MockApi.createOrder store
            { userId := some uid,
              items := some (ps.map fun x => ⟨none, some x.1, some x.2⟩) } now =
            ((201, Sum.inr o), store ++ [o]) ∧
          o.total = (ps.map fun x => x.1 * x.2).sum) ∧
    (∀ (store : JPH.JStore) (ps : List (ℚ × ℚ)) (uid : Int) (now : String),
        ps ≠ [] → (∀ x ∈ ps, x.1 ≠ 0 ∧ x.2 ≠ 0) →
        ∃ o s2, JPH.createOrder store
            { userId := some uid,
              items := some (ps.map fun x => ⟨none, some x.1, some x.2, none⟩),
              total := none } now = ((201, Sum.inr o), s2) ∧
          o.total = (ps.map fun x => x.1 * x.2).sum) ∧
    (∀ (store : List MockApi.Order) (oid : Int) (u : MockApi.OrderBody)
        (o : MockApi.Order),
        store.find? (fun x => x.id == oid) = some o → u.total = none →
        (MockApi.updateOrder store oid u).2 = store ∨
        ∃ o2, (MockApi.updateOrder store oid u).1 = (200, Sum.inr o2) ∧
          o2.total = o.total) ∧
    (∀ (store : JPH.JStore) (oid : Int) (bs : Option String) (now : String)
        (o : JPH.JOrder),
        JPH.mapGet store oid = some o →
        ∃ o2, (JPH.updateOrder store oid bs now).1 = (200, Sum.inr o2) ∧
          o2.total = o.total ∧
          JPH.mapGet (JPH.updateOrder store oid bs now).2 oid = some o2) := by
  refine ⟨?_, ?_, ?_, ?_⟩
  · intro store ps uid now hu hne hpos
    have hul : jsTruthyInt (some uid) = true := by
      simp [jsTruthyInt, hu]
    have hmapne : (ps.map fun x : ℚ × ℚ =>
        (⟨none, some x.1, some x.2⟩ : MockApi.OrderItem)).isEmpty = false := by
      cases ps with
      | nil => exact absurd rfl hne
      | cons a t => rfl
    have hq : (ps.map fun x : ℚ × ℚ =>
        (⟨none, some x.1, some x.2⟩ : MockApi.OrderItem)).any
          (fun x => decide (jsOrNum x.quantity 0 ≤ 0)) = false := by
      rw [List.any_eq_false]
      intro it hit
      obtain ⟨x, hx, rfl⟩ := List.mem_map.mp hit
      simp only [jsOrNum_some_zero, decide_eq_true_eq]
      exact not_le.mpr (hpos x hx)
    refine ⟨_, createOrder_success store _ now _ hul rfl hmapne hq, ?_⟩
    exact itemsTotal_pairs ps
  · intro store ps uid now hne hnz
    refine ⟨_, _, rfl, ?_⟩
    show (if jsOrNum (none : Option ℚ) 0 = 0 ∧
        (ps.map fun x : ℚ × ℚ =>
          (⟨none, some x.1, some x.2, none⟩ : JPH.JOrderItem)) ≠ [] then
        JPH.jItemsTotal (ps.map fun x : ℚ × ℚ => ⟨none, some x.1, some x.2, none⟩)
      else jsOrNum (none : Option ℚ) 0) = (ps.map fun x => x.1 * x.2).sum
    have hmapne : (ps.map fun x : ℚ × ℚ =>
        (⟨none, some x.1, some x.2, none⟩ : JPH.JOrderItem)) ≠ [] := by
      cases ps with
      | nil => exact absurd rfl hne
      | cons a t => simp
    rw [if_pos ⟨rfl, hmapne⟩]
    exact jItemsTotal_pairs ps hnz
  · intro store oid u o hf hu
    by_cases hc : jsTruthyStr u.status = true ∧
        u.status.getD "" ∉ MockApi.validStatuses
    · left
      simp [MockApi.updateOrder, hf, hc]
    · right
      refine ⟨MockApi.assignOrder o u, ?_, ?_⟩
      · simp [MockApi.updateOrder, hf, hc]
      · simp [MockApi.assignOrder, hu]
  · intro store oid bs now o h
    refine ⟨{ o with status := jsOrStr bs "pending" }, ?_, rfl, ?_⟩
    · simp [JPH.updateOrder, h]
    · have h2 : (JPH.updateOrder store oid bs now).2 =
          JPH.mapSet store oid { o with status := jsOrStr bs "pending" } := by
        simp [JPH.updateOrder, h]
      rw [h2]
      exact mapGet_mapSet_self _ _ _

/-- C2 witness: items [(2, 50), (1, 75)] give total 175 in the handlers.ts
variant, items [(2, 1299.99)] give total 2599.98 in the orderStore
variant, and a status update of the seeded order 1 keeps its total
399.97. -/
theorem c2_order_total_exact_witness :
    (∃ o, MockApi.createOrder MockApi.mockOrders
        { userId := some 1,
          items := some ([((2 : ℚ), (50 : ℚ)), ((1 : ℚ), (75 : ℚ))].map
            fun x => ⟨none, some x.1, some x.2⟩) } "2099-01-01T00:00:00Z" =
        ((201, Sum.inr o), MockApi.mockOrders ++ [o]) ∧ o.total = 175) ∧
    (∃ o s2, JPH.createOrder JPH.seedOrders
        { userId := some 1,
          items := some ([((2 : ℚ), (1299.99 : ℚ))].map
            fun x => ⟨none, some x.1, some x.2, none⟩),
          total := none } "2099-01-01T00:00:00Z" = ((201, Sum.inr o), s2) ∧
        o.total = 2599.98) ∧
    (∃ o2, (JPH.updateOrder JPH.seedOrders 1 (some "completed")
        "2099-01-01T00:00:00Z").1 = (200, Sum.inr o2) ∧ o2.total = 399.97) := by
  refine ⟨?_, ?_, ?_⟩
  · obtain ⟨o, heq, htot⟩ := c2_order_total_exact.1 MockApi.mockOrders
      [((2 : ℚ), (50 : ℚ)), ((1 : ℚ), (75 : ℚ))] 1 "2099-01-01T00:00:00Z"
      (by decide) (by decide) (by decide)
    refine ⟨o, heq, ?_⟩
    rw [htot]
    norm_num
  · obtain ⟨o, s2, heq, htot⟩ := c2_order_total_exact.2.1 JPH.seedOrders
      [((2 : ℚ), (1299.99 : ℚ))] 1 "2099-01-01T00:00:00Z" (by decide)
      (by intro x hx
          rw [List.mem_singleton] at hx
          subst hx
          constructor <;> norm_num)
    refine ⟨o, s2, heq, ?_⟩
    rw [htot]
    norm_num
  · obtain ⟨o2, h1, h2, -⟩ := c2_order_total_exact.2.2.2 JPH.seedOrders 1
      (some "completed") "2099-01-01T00:00:00Z"
      ⟨1, some 1,
        [⟨some 1, some 2, none, some 99.99⟩, ⟨some 2, some 1, none, some 199.99⟩],
        399.97, "pending", "2024-01-15T10:00:00Z"⟩ rfl
    exact ⟨o2, h1, h2.trans rfl⟩

/-- The order-creation body of the C2 counterexample: one item of
quantity 1 with an explicit unit price of 0. -/
def c2cexBody : JPH.JOrderBody :=
  { userId := some 1, items := some [⟨none, some 1, some 0, none⟩], total := none }

/-- The order the orderStore variant actually creates for `c2cexBody`: the
falsy unit price 0 is replaced by the default 50, so the stored total is
50, not the exact 1 * 0 = 0 the claim requires. -/
def c2cexOrder : JPH.JOrder :=
  ⟨4, some 1, [⟨none, some 1, some 0, none⟩], 50, "pending", "2024-01-01T00:00:00Z"⟩

/-- C2 counterexample: creating an order with the single item
(quantity 1, unitPrice 0) in the orderStore variant succeeds and stores
total 50 instead of the exact sum 0. -/
theorem c2_order_total_counterexample :
    JPH.createOrder JPH.seedOrders c2cexBody "2024-01-01T00:00:00Z" =
      ((201, Sum.inr c2cexOrder), JPH.mapSet JPH.seedOrders 4 c2cexOrder) ∧
    c2cexOrder.total = 50 ∧ (1 : ℚ) * 0 ≠ 50 := by
  refine ⟨?_, rfl, by norm_num⟩
  norm_num [JPH.createOrder, c2cexBody, c2cexOrder, JPH.jItemsTotal, jsOrNum,
    JPH.seedOrders, maxId, JPH.mapSet]

/-- The creation body of the C5 scenario. -/
def c5Body : JPH.JOrderBody :=
  { userId := some 1, items := some [⟨some 1, some 2, some 1299.99, none⟩],
    total := none }

/-- The order the C5 scenario creates (id 4 on the seeded store). -/
def c5o1 : JPH.JOrder :=
  ⟨4, some 1, [⟨some 1, some 2, some 1299.99, none⟩], 2599.98, "pending",
   "2024-02-01T00:00:00Z"⟩

/-- The same order after the status update of the C5 scenario. -/
def c5o2 : JPH.JOrder := { c5o1 with status := "completed" }

/-- C5 (amended): the end-to-end scenario holds in the orderStore variant —
creating {userId 1, items [{productId 1, quantity 2, unitPrice 1299.99}]}
yields a pending order with total 2599.98, updating it to completed
succeeds, and a subsequent get still reads completed from the store.  (In
the handlers.ts variant the scenario fails: see the counterexample.) -/
theorem c5_order_lifecycle :
    JPH.createOrder JPH.seedOrders c5Body "2024-02-01T00:00:00Z" =
      ((201, Sum.inr c5o1), JPH.mapSet JPH.seedOrders 4 c5o1) ∧
    c5o1.status = "pending" ∧ c5o1.total = 2599.98 ∧
    JPH.updateOrder (JPH.mapSet JPH.seedOrders 4 c5o1) 4 (some "completed")
        "2024-02-01T01:00:00Z" =
      ((200, Sum.inr c5o2), JPH.mapSet (JPH.mapSet JPH.seedOrders 4 c5o1) 4 c5o2) ∧
    c5o2.status = "completed" ∧ c5o2.total = 2599.98 ∧
    JPH.getOrder (JPH.mapSet (JPH.mapSet JPH.seedOrders 4 c5o1) 4 c5o2) 4
        "2024-02-01T02:00:00Z" =
      ((200, Sum.inr c5o2),
        JPH.mapSet (JPH.mapSet JPH.seedOrders 4 c5o1) 4 c5o2) := by
  refine ⟨?_, rfl, rfl, ?_, rfl, rfl, ?_⟩
  · norm_num [JPH.createOrder, c5Body, c5o1, JPH.jItemsTotal, jsOrNum,
      JPH.seedOrders, maxId, JPH.mapSet]
  · have hg : JPH.mapGet (JPH.mapSet JPH.seedOrders 4 c5o1) 4 = some c5o1 :=
      mapGet_mapSet_self _ _ _
    simp [JPH.updateOrder, hg, jsOrStr, c5o2]
  · have hg : JPH.mapGet (JPH.mapSet (JPH.mapSet JPH.seedOrders 4 c5o1) 4 c5o2) 4 =
        some c5o2 := mapGet_mapSet_self _ _ _
    simp [JPH.getOrder, hg]

/-- The creation body of the C5 counterexample in the handlers.ts variant
(item prices live in the `price` field there). -/
def c5hBody : MockApi.OrderBody :=
  { userId := some 1, items := some [⟨some 1, some 2, some 1299.99⟩] }

/-- The order the handlers.ts variant creates for `c5hBody` (id 3). -/
def c5hOrder : MockApi.Order :=
  ⟨3, 1, [⟨some 1, some 2, some 1299.99⟩], 2599.98, "pending",
   "2024-02-01T00:00:00Z"⟩

/-- C5 counterexample: in the handlers.ts variant the scenario breaks at
the update step — "completed" is not among the valid statuses
(pending/processing/shipped/delivered), so updateOrder(id,
{status:"completed"}) answers 400 Invalid status instead of succeeding. -/
theorem c5_order_lifecycle_counterexample :
    MockApi.createOrder MockApi.mockOrders c5hBody "2024-02-01T00:00:00Z" =
      ((201, Sum.inr c5hOrder), MockApi.mockOrders ++ [c5hOrder]) ∧
    c5hOrder.status = "pending" ∧ c5hOrder.total = 2599.98 ∧
    MockApi.validStatuses.contains "completed" = false ∧
    MockApi.updateOrder (MockApi.mockOrders ++ [c5hOrder]) 3
        { status := some "completed" } =
      ((400, Sum.inl "Invalid status"), MockApi.mockOrders ++ [c5hOrder]) := by
  refine ⟨?_, rfl, rfl, by decide, ?_⟩
  · norm_num [MockApi.createOrder, c5hBody, c5hOrder, MockApi.itemsTotal,
      jsOrNum, jsTruthyInt, MockApi.mockOrders, maxId]
  · have hf : (MockApi.mockOrders ++ [c5hOrder]).find? (fun x => x.id == 3) =
        some c5hOrder := rfl
    simp [MockApi.updateOrder, hf, jsTruthyStr, MockApi.validStatuses]
